import Mathlib

/-!
Verification development for the Resonext2ai application.

The definitions below are a shallow embedding of the TypeScript source:
* `src/types.ts` — the data model (profiles, saved professors, saved
  programs, SOPs, the per-account `UserData` document);
* `src/App.tsx` (the current version, the one carrying the "THE FIX"
  comments) — the session / data-synchronization controller and the
  mutation handlers;
* `src/services/dataService.ts` — `getUserData` over the remote store's
  single-row response;
* `src/unnamed/part_003` (`ProfileForm`) — profile add/delete;
* `src/unnamed/part_006` (`SavedTab`) — filtering and CSV export.

Machine strings are Lean `String`s; JavaScript `undefined`/optional fields
become `Option`; the React component state becomes an explicit state record
with an event-labelled step function, and the `useEffect` persistence hook
becomes an observation function of the post-state (the effect runs whenever
one of its dependencies changed, and either emits a `saveUserData` call or
is suppressed by its guard, exactly as in the source).
-/

namespace Resonext

/-- Data model: `DegreeInfo` from `src/types.ts`. -/
structure DegreeInfo where
  university : String
  major : String
  gpa : String
deriving DecidableEq, Repr

/-- Data model: `SampleSop` from `src/types.ts`. -/
structure SampleSop where
  id : String
  content : String
  fileName : Option String
  fileContent : Option String
  fileMimeType : Option String
deriving DecidableEq, Repr

/-- Data model: `UserProfile` from `src/types.ts`. -/
structure UserProfile where
  id : String
  profileName : String
  name : String
  bachelor : DegreeInfo
  master : Option DegreeInfo
  researchInterests : String
  relevantCoursework : String
  academicSummary : String
  workExperience : String
  conferences : Option String
  portfolio : String
  futureGoals : Option String
  cvContent : String
  cvFileName : String
  cvMimeType : Option String
  demoSop : Option String
  sampleSops : Option (List SampleSop)
deriving DecidableEq, Repr

/-- Data model: `SuggestedPaper` from `src/types.ts`. -/
structure SuggestedPaper where
  title : String
  link : String
deriving DecidableEq, Repr

/-- Data model: the `'pending' | 'positive' | 'negative'` outcome union of
`SavedProfessor.outcome` in `src/types.ts`. -/
inductive Outcome where
  | pending
  | positive
  | negative
deriving DecidableEq, Repr

/-- Rendering of an `Outcome` back to its TypeScript string literal. -/
def Outcome.toStr : Outcome → String
  | .pending => "pending"
  | .positive => "positive"
  | .negative => "negative"

/-- Data model: `SavedProfessor` from `src/types.ts` (it extends
`ProfessorRecommendation`; the inherited fields are inlined). -/
structure SavedProfessor where
  id : String
  name : String
  university : String
  department : String
  researchSummary : String
  labWebsite : String
  email : String
  designation : Option String
  suggestedPapers : Option (List SuggestedPaper)
  universityProfileLink : Option String
  googleScholarLink : Option String
  feedback : String
  emailSent : Bool
  outcome : Outcome
  alignmentSummary : Option String
  outreachEmail : Option String
  emailSubject : Option String
deriving DecidableEq, Repr

/-- Data model: `ProfessorRecommendation` from `src/types.ts`. -/
structure ProfessorRecommendation where
  id : String
  name : String
  university : String
  department : String
  researchSummary : String
  labWebsite : String
  email : String
  designation : Option String
  suggestedPapers : Option (List SuggestedPaper)
deriving DecidableEq, Repr

/-- Data model: `AnalysisResult` from `src/types.ts` (response of
`generateAnalysisAndEmail`). -/
structure AnalysisResult where
  alignmentSummary : String
  outreachEmail : String
  emailSubject : String
deriving DecidableEq, Repr

/-- Data model: the response of `regenerateEmail` in
`src/services/geminiService.ts`. Its declared `responseSchema` has exactly
the two required keys `outreachEmail` and `emailSubject`. -/
structure RegeneratedEmail where
  outreachEmail : String
  emailSubject : String
deriving DecidableEq, Repr

/-- Data model: the `applicationRequirements` object of `ProgramDetails`
in `src/types.ts`. -/
structure ApplicationRequirements where
  ielts : String
  toefl : String
  greGmat : String
  gpaRequirement : String
deriving DecidableEq, Repr

/-- Data model: `ApplicationDeadline` from `src/types.ts`. -/
structure ApplicationDeadline where
  intake : String
  deadline : String
deriving DecidableEq, Repr

/-- Data model: `ProgramDetails` from `src/types.ts`. -/
structure ProgramDetails where
  programName : String
  degreeType : String
  fieldRelevance : String
  applicationRequirements : ApplicationRequirements
  applicationFee : String
  applicationDeadlines : List ApplicationDeadline
  programLink : String
  applicationLink : String
deriving DecidableEq, Repr

/-- Data model: `SavedProgram` (extends `ProgramDetails`, inlined) plus the
tracking fields `applicationStatus`, `deadline` and `notes` which
`handleSaveProgram` in `src/App.tsx` stores on every saved program. -/
structure SavedProgram where
  id : String
  universityName : String
  applicationStatus : String
  deadline : String
  notes : String
  programName : String
  degreeType : String
  fieldRelevance : String
  applicationRequirements : ApplicationRequirements
  applicationFee : String
  applicationDeadlines : List ApplicationDeadline
  programLink : String
  applicationLink : String
deriving DecidableEq, Repr

/-- Data model: the denormalized professor snapshot stored on a `Sop`
(`targetProfessors` entries) in `src/types.ts`. -/
structure SopTargetProfessor where
  name : String
  researchSummary : String
deriving DecidableEq, Repr

/-- Data model: `Sop` from `src/types.ts`. -/
structure Sop where
  id : String
  profileId : String
  university : String
  program : String
  content : String
  targetProfessors : Option (List SopTargetProfessor)
  createdAt : String
  updatedAt : String
deriving DecidableEq, Repr

/-- Data model: `UserData` — the one JSON document per account persisted by
`dataService.saveUserData` (see `src/types.ts` and `src/App.tsx`). -/
structure UserData where
  profiles : List UserProfile
  activeProfileId : Option String
  savedProfessors : List SavedProfessor
  savedPrograms : List SavedProgram
  sops : List Sop
deriving DecidableEq, Repr

/-! String helpers embedding the JavaScript primitives used by the id
derivation and the CSV export. -/

/-- Character class of the JavaScript regular-expression `\s` restricted to
the ASCII range (space, tab, line feed, vertical tab, form feed, carriage
return). All inputs appearing in the application are ASCII. -/
def isJsWs (c : Char) : Bool :=
  c = ' ' || c = '\t' || c = '\n' || c = '\x0b' || c = '\x0c' || c = '\r'

/-- Embedding of `String.prototype.replace(/\s+/g, '-')`: each maximal run
of whitespace characters is replaced by a single `'-'`. The flag records
whether the previous character was part of a whitespace run. -/
def collapseWsAux : Bool → List Char → List Char
  | _, [] => []
  | prevWs, c :: rest =>
    if isJsWs c then
      (if prevWs then [] else ['-']) ++ collapseWsAux true rest
    else
      c :: collapseWsAux false rest

/-- Embedding of `` `${a}-${b}`.replace(/\s+/g, '-') `` — the saved-professor
id derivation used in `handleSaveAnalysisToProfessor` and the manual save
handlers in `src/App.tsx` (no lower-casing there). -/
def profIdOf (name university : String) : String :=
  String.mk (collapseWsAux false (name ++ "-" ++ university).data)

/-- Embedding of the program id computed by `handleSaveProgram` in
`src/App.tsx`:
`` `${program.programName}-${universityName}`.replace(/\s+/g, '-').toLowerCase() ``.
`Char.toLower` agrees with JavaScript `toLowerCase` on ASCII. -/
def programIdOf (programName universityName : String) : String :=
  String.mk (((collapseWsAux false (programName ++ "-" ++ universityName).data)).map Char.toLower)

/-! Mutation handlers of `src/App.tsx` (current version). Each React
`setXs(prev => ...)` updater becomes a function of the previous list. -/

/-- The object literal
`{ id: programId, universityName, applicationStatus: 'Not Started', deadline: '', notes: '', ...program }`
built by `handleSaveProgram` in `src/App.tsx`. -/
def mkSavedProgram (program : ProgramDetails) (universityName : String) : SavedProgram :=
  { id := programIdOf program.programName universityName,
    universityName := universityName,
    applicationStatus := "Not Started", deadline := "", notes := "",
    programName := program.programName, degreeType := program.degreeType,
    fieldRelevance := program.fieldRelevance,
    applicationRequirements := program.applicationRequirements,
    applicationFee := program.applicationFee,
    applicationDeadlines := program.applicationDeadlines,
    programLink := program.programLink,
    applicationLink := program.applicationLink }

/-- Embedding of `handleSaveProgram` in `src/App.tsx`: toggles a program in
the saved list, keyed by the derived program id (the source binds the id to
a local `programId` constant; it is inlined here). `savedProgramIds.has`
becomes a scan of the list of ids. -/
def handleSaveProgram (saved : List SavedProgram) (program : ProgramDetails)
    (universityName : String) : List SavedProgram :=
  if saved.any (fun p => p.id == programIdOf program.programName universityName) then
    saved.filter (fun p => p.id != programIdOf program.programName universityName)
  else
    saved ++ [mkSavedProgram program universityName]

/-- Embedding of the record built by `handleSaveProfessor` in `src/App.tsx`
when the professor is not yet saved:
`{ ...prof, feedback: '', emailSent: false, outcome: 'pending', suggestedPapers: prof.suggestedPapers || [] }`. -/
def mkSavedFromRecommendation (prof : ProfessorRecommendation) : SavedProfessor :=
  { id := prof.id, name := prof.name, university := prof.university,
    department := prof.department, researchSummary := prof.researchSummary,
    labWebsite := prof.labWebsite, email := prof.email,
    designation := prof.designation,
    suggestedPapers := some (prof.suggestedPapers.getD []),
    universityProfileLink := none, googleScholarLink := none,
    feedback := "", emailSent := false, outcome := .pending,
    alignmentSummary := none, outreachEmail := none, emailSubject := none }

/-- Embedding of `handleSaveProfessor` in `src/App.tsx`: a toggle keyed by
the professor's id against the saved list. -/
def handleSaveProfessor (saved : List SavedProfessor)
    (prof : ProfessorRecommendation) : List SavedProfessor :=
  if saved.any (fun p => p.id == prof.id) then
    saved.filter (fun p => p.id != prof.id)
  else
    saved ++ [mkSavedFromRecommendation prof]

/-! Profile add/delete from `ProfileForm` (`src/unnamed/part_003`). -/

/-- Embedding of the `createNewProfile` factory in `src/App.tsx`; the
`crypto.randomUUID()` identifier is passed in as `freshId`. -/
def createNewProfile (freshId profileName : String) : UserProfile :=
  { id := freshId, profileName := profileName, name := "",
    bachelor := { university := "", major := "", gpa := "" },
    master := some { university := "", major := "", gpa := "" },
    researchInterests := "", relevantCoursework := "", academicSummary := "",
    workExperience := "", conferences := some "", portfolio := "",
    futureGoals := some "", cvContent := "", cvFileName := "",
    cvMimeType := some "", demoSop := some "", sampleSops := some [] }

/-- Embedding of `handleAddProfile` in `ProfileForm`
(`src/unnamed/part_003`): bounded to five profiles; the new profile becomes
active. Returns the new `(profiles, activeProfileId)` pair. -/
def handleAddProfile (profiles : List UserProfile) (activeProfileId : Option String)
    (freshId : String) : List UserProfile × Option String :=
  if profiles.length < 5 then
    let newProfile := createNewProfile freshId ("Profile " ++ toString (profiles.length + 1))
    (profiles ++ [newProfile], some newProfile.id)
  else
    (profiles, activeProfileId)

/-- Embedding of `handleDeleteProfile` in `ProfileForm`
(`src/unnamed/part_003`): blocked unless more than one profile remains; the
profiles whose id equals the active id are removed and the first remaining
profile becomes active (the source indexes `newProfiles[0]`; the `Option`
head keeps the embedding total). -/
def handleDeleteProfile (profiles : List UserProfile)
    (activeProfileId : Option String) : List UserProfile × Option String :=
  if 1 < profiles.length then
    let newProfiles := profiles.filter (fun p => some p.id != activeProfileId)
    (newProfiles, (newProfiles.head?).map (fun p => p.id))
  else
    (profiles, activeProfileId)

/-! Analysis save/merge and email regeneration (`src/App.tsx`,
`src/services/geminiService.ts`). -/

/-- Input of `handleSaveAnalysisToProfessor` in `src/App.tsx`: the source
accepts `ProfessorProfile | ProfessorRecommendation | SavedProfessor`.
`id` is `none` for the `ProfessorProfile` variant (the code tests
`'id' in profToSave`); `researchSummary` carries whichever of
`researchSummary`/`researchFocus` the variant has (the code tests for the
field name, falling back to the empty string). -/
structure ProfToSave where
  id : Option String
  name : String
  university : String
  department : String
  researchSummary : String
  labWebsite : String
  email : String
  designation : Option String
  suggestedPapers : Option (List SuggestedPaper)
deriving DecidableEq, Repr

/-- Spread `{ ...p, ...result }` of an `AnalysisResult` into a
`SavedProfessor` (the merge branch of `handleSaveAnalysisToProfessor`). -/
def applyAnalysis (q : SavedProfessor) (r : AnalysisResult) : SavedProfessor :=
  { q with alignmentSummary := some r.alignmentSummary,
           outreachEmail := some r.outreachEmail,
           emailSubject := some r.emailSubject }

/-- The fresh record built by the append branch of
`handleSaveAnalysisToProfessor` in `src/App.tsx`. -/
def newSavedProfOf (p : ProfToSave) (r : AnalysisResult) : SavedProfessor :=
  { id := p.id.getD (profIdOf p.name p.university),
    name := p.name, university := p.university, department := p.department,
    researchSummary := p.researchSummary, labWebsite := p.labWebsite,
    email := p.email, designation := p.designation,
    suggestedPapers := p.suggestedPapers,
    universityProfileLink := none, googleScholarLink := none,
    feedback := "", emailSent := false, outcome := .pending,
    alignmentSummary := some r.alignmentSummary,
    outreachEmail := some r.outreachEmail,
    emailSubject := some r.emailSubject }

/-- Embedding of `handleSaveAnalysisToProfessor` in `src/App.tsx`: upsert
keyed by `(name, university)` — merge into the record whose id matches the
found record, or append a fresh one. -/
def handleSaveAnalysisToProfessor (saved : List SavedProfessor)
    (p : ProfToSave) (r : AnalysisResult) : List SavedProfessor :=
  match saved.find? (fun q => q.name == p.name && q.university == p.university) with
  | some existingProf =>
      saved.map (fun q => if q.id == existingProf.id then applyAnalysis q r else q)
  | none => saved ++ [newSavedProfOf p r]

/-- Spread `{ ...p, ...regeneratedData }` of a `regenerateEmail` response
into a `SavedProfessor`. -/
def applyRegenerated (q : SavedProfessor) (d : RegeneratedEmail) : SavedProfessor :=
  { q with outreachEmail := some d.outreachEmail,
           emailSubject := some d.emailSubject }

/-- Embedding of the state update performed by
`handleRegenerateForSavedProfessor` in `src/App.tsx` once `regenerateEmail`
resolves: `prev.map(p => p.id === prof.id ? { ...p, ...regeneratedData } : p)`. -/
def handleRegenerateMerge (saved : List SavedProfessor) (profId : String)
    (d : RegeneratedEmail) : List SavedProfessor :=
  saved.map (fun q => if q.id == profId then applyRegenerated q d else q)

/-! Saved-items tracker: filter, sort and CSV export
(`ProfessorsView` in `src/unnamed/part_006`). -/

/-- Substring occurrence on character lists (`containsSub needle hay` holds
when `needle` occurs contiguously in `hay`). -/
def containsSub (needle : List Char) : List Char → Bool
  | [] => List.isPrefixOf needle []
  | c :: rest => List.isPrefixOf needle (c :: rest) || containsSub needle rest

/-- Embedding of JavaScript `haystack.includes(needle)` on strings. -/
def jsIncludes (haystack needle : String) : Bool :=
  containsSub needle.data haystack.data

/-- Embedding of JavaScript `String.prototype.toLowerCase` (character-wise
`Char.toLower`; they agree on ASCII). -/
def jsToLower (s : String) : String :=
  String.mk (s.data.map Char.toLower)

/-- Embedding of the substring filter of `displayedProfessors` in
`src/unnamed/part_006`: the lower-cased term must occur in the lower-cased
name, university, department or research summary. -/
def matchesTerm (searchTerm : String) (p : SavedProfessor) : Bool :=
  jsIncludes (jsToLower p.name) (jsToLower searchTerm) ||
    jsIncludes (jsToLower p.university) (jsToLower searchTerm) ||
    jsIncludes (jsToLower p.department) (jsToLower searchTerm) ||
    jsIncludes (jsToLower p.researchSummary) (jsToLower searchTerm)

/-- Embedding of the email-status filter of `displayedProfessors`. -/
def matchesEmailStatus (emailStatusFilter : String) (p : SavedProfessor) : Bool :=
  emailStatusFilter == "all" || (emailStatusFilter == "sent" && p.emailSent) ||
    (emailStatusFilter == "pending" && !p.emailSent)

/-- Stable insertion of an element into a sorted list (used to model the
stable comparator sort of `Array.prototype.sort`). -/
def insertLe {α : Type} (le : α → α → Bool) (a : α) : List α → List α
  | [] => [a]
  | b :: l => if le a b then a :: b :: l else b :: insertLe le a l

/-- Insertion sort by a boolean comparator, modelling the stable
`Array.prototype.sort` call of `displayedProfessors`. Only the length and
membership of the result are relied upon by the theorems below, so the
choice of sorting algorithm is immaterial. -/
def insertionSortLe {α : Type} (le : α → α → Bool) : List α → List α
  | [] => []
  | a :: l => insertLe le a (insertionSortLe le l)

/-- Lexicographic code-point order on character lists. -/
def charListLe : List Char → List Char → Bool
  | [], _ => true
  | _ :: _, [] => false
  | a :: as, b :: bs =>
    if a < b then true else if b < a then false else charListLe as bs

/-- The comparator selected by the `sortOrder` switch of
`displayedProfessors`. `String.localeCompare` is modelled as code-point
order (they agree on the ASCII inputs of the application; the counting
theorems below do not depend on the comparator). -/
def sortLe (sortOrder : String) (a b : SavedProfessor) : Bool :=
  if sortOrder == "name-desc" then charListLe b.name.data a.name.data
  else if sortOrder == "uni-asc" then charListLe a.university.data b.university.data
  else if sortOrder == "uni-desc" then charListLe b.university.data a.university.data
  else charListLe a.name.data b.name.data

/-- Embedding of `displayedProfessors` in `src/unnamed/part_006`: filter by
search term and email status, then sort by the selected order. -/
def displayedProfessors (saved : List SavedProfessor) (searchTerm : String)
    (emailStatusFilter : String) (sortOrder : String) : List SavedProfessor :=
  insertionSortLe (sortLe sortOrder)
    (saved.filter (fun p => matchesTerm searchTerm p && matchesEmailStatus emailStatusFilter p))

/-- Embedding of `p.feedback.replace(/"/g, '""')`: every quote character is
doubled. -/
def escCsvQuotes : List Char → List Char
  | [] => []
  | c :: rest => if c = '"' then '"' :: '"' :: escCsvQuotes rest else c :: escCsvQuotes rest

/-- The cell list of one CSV data row in `exportToCSV`
(`src/unnamed/part_006`). The `val || ''` mapping sends `undefined` and
`false` to the empty string and leaves non-empty strings alone; a `true`
boolean is stringified to `"true"` by `Array.prototype.join`. The notes
cell is the quote-wrapped, quote-escaped feedback. -/
def csvCells (p : SavedProfessor) : List String :=
  [p.name, p.university, p.department,
   (if p.emailSent then "true" else ""), p.outcome.toStr, p.email,
   p.universityProfileLink.getD "", p.labWebsite, p.googleScholarLink.getD "",
   "\"" ++ String.mk (escCsvQuotes p.feedback.data) ++ "\""]

/-- One CSV data row: the cells joined with commas. -/
def csvRowOf (p : SavedProfessor) : String :=
  String.intercalate "," (csvCells p)

/-- The fixed header line of `exportToCSV`. -/
def csvHeaders : String :=
  "Name,University,Department,Email Sent,Outcome,Email,Profile URL,Lab URL,Scholar URL,Notes"

/-- Embedding of `exportToCSV` in `src/unnamed/part_006`: the CSV content is
the header line followed by one data row per displayed professor (the
source joins these lines with `"\n"` into a data URI). -/
def exportLines (saved : List SavedProfessor) (searchTerm : String)
    (emailStatusFilter : String) (sortOrder : String) : List String :=
  csvHeaders :: (displayedProfessors saved searchTerm emailStatusFilter sortOrder).map csvRowOf

/-! Remote store read (`getUserData` in `src/services/dataService.ts`). -/

/-- Data model: the error object of a PostgREST single-row response. -/
structure StoreError where
  code : String
  message : String
deriving DecidableEq, Repr

/-- Data model: the `{ data, error }` result of
`supabase.from('user_data').select('data').eq(...).single()`. A found row
has `data = some d, error = none`; an absent row has `error` with code
`PGRST116`; a failed fetch has `error` with some other code. -/
structure StoreSingleResponse where
  data : Option UserData
  error : Option StoreError
deriving DecidableEq, Repr

/-- Embedding of `getUserData` in `src/services/dataService.ts`: an error
whose code is not `PGRST116` is logged and mapped to `null`; otherwise the
row's data (or `null`) is returned. -/
def getUserData (resp : StoreSingleResponse) : Option UserData :=
  if resp.error.any (fun e => e.code != "PGRST116") then none
  else resp.data

/-! Session & data-sync controller (`App` in `src/App.tsx`, current
version): component state, event-labelled step function, and the
persistence effect as an observation of each step. -/

/-- The React component state of `App` that the claims are about: the
initial-load flag, the session (as the signed-in email), the fatal error
message, and the five user-data collections. -/
structure AppState where
  isInitialLoad : Bool
  session : Option String
  error : Option String
  profiles : List UserProfile
  activeProfileId : Option String
  savedProfessors : List SavedProfessor
  savedPrograms : List SavedProgram
  sops : List Sop
deriving DecidableEq, Repr

/-- The `useState` initial values of `App`. -/
def initialAppState : AppState :=
  { isInitialLoad := true, session := none, error := none, profiles := [],
    activeProfileId := none, savedProfessors := [], savedPrograms := [], sops := [] }

/-- The clearing of all user-specific collections (the signed-out branch of
the data-sync effect, also performed by `handleLogout`). -/
def clearUserState (st : AppState) : AppState :=
  { st with profiles := [], activeProfileId := none, savedProfessors := [],
            savedPrograms := [], sops := [] }

/-- Setting the session: the data-sync `useEffect` reacts to the new value,
clearing all collections when it is `none` (a signed-in session instead
starts an asynchronous load, modelled by a later `loadComplete` or
`loadFailed` event). -/
def setSession (s : Option String) (st : AppState) : AppState :=
  let st' := { st with session := s }
  match s with
  | none => clearUserState st'
  | some _ => st'

/-- The full document assembled by the save effect
(`currentDataInState`). -/
def dataOf (st : AppState) : UserData :=
  { profiles := st.profiles, activeProfileId := st.activeProfileId,
    savedProfessors := st.savedProfessors, savedPrograms := st.savedPrograms,
    sops := st.sops }

/-- The state update of `loadAndInitializeUserData` when a remote document
exists: load it as-is, repairing `activeProfileId` to a profile that exists
(falling back to the first profile, or `null`). A stored empty-string id is
falsy in the source's `existingData.activeProfileId && ...` test. -/
def applyExistingData (d : UserData) (st : AppState) : AppState :=
  let userProfiles := d.profiles
  let act : Option String :=
    match d.activeProfileId with
    | some aid =>
        if aid != "" && userProfiles.any (fun p => p.id == aid) then some aid
        else (userProfiles.head?).map (fun p => p.id)
    | none => (userProfiles.head?).map (fun p => p.id)
  { st with profiles := userProfiles, activeProfileId := act,
            savedProfessors := d.savedProfessors,
            savedPrograms := d.savedPrograms, sops := d.sops }

/-- The state update of `loadAndInitializeUserData` on the load result: an
existing document is applied; an absent document ("THE FIX" branch of the
current `src/App.tsx`) sets an empty state and does not create any
profile. -/
def applyLoadResult (r : Option UserData) (st : AppState) : AppState :=
  match r with
  | some d => applyExistingData d st
  | none => clearUserState st

/-- Events driving the `App` component: the initial `getSession`
resolution, `onAuthStateChange` notifications, the asynchronous completion
or failure of `loadAndInitializeUserData`, logout, and the user mutations
available from the rendered UI (creating a profile in `ProfileForm`,
adding a saved professor). -/
inductive Event where
  | authResolved (session : Option String)
  | sessionChange (session : Option String)
  | loadComplete (forSession : String) (result : Option UserData)
  | loadFailed (forSession : String) (message : String)
  | logout
  | addProfile (freshId : String)
  | addSavedProfessor (prof : SavedProfessor)
deriving DecidableEq, Repr

/-- Whether the main UI (and hence any user mutation) is reachable: the
initial auth check has finished, a session is present and no fatal error is
shown (the three early returns of `App`'s render). -/
def uiActive (st : AppState) : Bool :=
  !st.isInitialLoad && st.session.isSome && st.error.isNone

/-- The event-labelled step function of the controller. `none` means the
event is not enabled in this state (a load callback whose session is no
longer current is dropped by the `isMounted` guard; mutations require the
main UI). -/
def step (st : AppState) : Event → Option AppState
  | .authResolved s => some (setSession s { st with isInitialLoad := false })
  | .sessionChange s => some (setSession s st)
  | .loadComplete forSession r =>
      if st.session == some forSession then some (applyLoadResult r st) else none
  | .loadFailed forSession message =>
      if st.session == some forSession then
        some { st with error := some ("Could not load your profile due to a database error. Please check your connection and refresh. Details: " ++ message) }
      else none
  | .logout => some (clearUserState { st with session := none })
  | .addProfile freshId =>
      if uiActive st then
        let r := handleAddProfile st.profiles st.activeProfileId freshId
        some { st with profiles := r.1, activeProfileId := r.2 }
      else none
  | .addSavedProfessor p =>
      if uiActive st then some { st with savedProfessors := st.savedProfessors ++ [p] }
      else none

/-- The dependency tuple of the save `useEffect` in `src/App.tsx`
(`[profiles, activeProfileId, savedProfessors, savedPrograms, sops, session, isInitialLoad]`);
the effect re-runs exactly when it changed. -/
def depsOf (st : AppState) :
    List UserProfile × Option String × List SavedProfessor × List SavedProgram × List Sop × Option String × Bool :=
  (st.profiles, st.activeProfileId, st.savedProfessors, st.savedPrograms,
   st.sops, st.session, st.isInitialLoad)

/-- The body of the save effect: suppressed while `isInitialLoad`, while
signed out, or while `profiles` is empty and `activeProfileId` is null;
otherwise it calls `dataService.saveUserData(email, currentDataInState)`. -/
def saveEmit (st : AppState) : Option (String × UserData) :=
  if st.isInitialLoad then none
  else
    match st.session with
    | none => none
    | some email =>
        if st.profiles.isEmpty && st.activeProfileId.isNone then none
        else some (email, dataOf st)

/-- One recorded `saveUserData` call, with a ghost flag telling whether the
current session's load had already completed when the save fired. -/
structure SaveCall where
  email : String
  payload : UserData
  loadedBefore : Bool
deriving DecidableEq, Repr

/-- A run of the controller: the component state, a ghost flag recording
whether the current session's load effect has completed, and the trace of
persistence calls emitted so far. -/
structure RunState where
  app : AppState
  loaded : Bool
  saves : List SaveCall
deriving DecidableEq, Repr

/-- The initial run state. -/
def initRun : RunState := { app := initialAppState, loaded := false, saves := [] }

/-- The ghost load flag after an event: a session change starts a fresh
not-yet-loaded session, a completed load sets it. -/
def nextLoaded (rs : RunState) (e : Event) (app2 : AppState) : Bool :=
  match e with
  | .loadComplete _ _ => true
  | .authResolved _ => if app2.session == rs.app.session then rs.loaded else false
  | .sessionChange _ => if app2.session == rs.app.session then rs.loaded else false
  | .logout => false
  | _ => rs.loaded

/-- The recorded saves after a step: the save effect runs exactly when its
dependency tuple changed, and appends its emitted call (if any). -/
def nextSaves (rs : RunState) (app2 : AppState) (loaded2 : Bool) : List SaveCall :=
  if depsOf app2 != depsOf rs.app then
    match saveEmit app2 with
    | some (email, d) => rs.saves ++ [{ email := email, payload := d, loadedBefore := loaded2 }]
    | none => rs.saves
  else rs.saves

/-- One step of a run: apply the event, update the ghost load flag, and run
the save effect, recording the emitted call. -/
def stepRun (rs : RunState) (e : Event) : Option RunState :=
  match step rs.app e with
  | none => none
  | some app2 =>
    some { app := app2, loaded := nextLoaded rs e app2,
           saves := nextSaves rs app2 (nextLoaded rs e app2) }

/-- Running a whole event trace from the initial state; `none` means some
event of the trace was not enabled. -/
def runTrace (events : List Event) : Option RunState :=
  events.foldlM stepRun initRun

/-- The screen `App` renders: the early returns on the initial auth check,
on a missing session and on a fatal error, else the main UI. -/
inductive Screen where
  | loading
  | login
  | errorScreen
  | main
deriving DecidableEq, Repr

/-- Embedding of the render dispatch of `App` (current `src/App.tsx`). -/
def render (st : AppState) : Screen :=
  if st.isInitialLoad then .loading
  else if st.session.isNone then .login
  else if st.error.isSome then .errorScreen
  else .main

/-! Concrete fixtures used by counterexamples and witnesses. -/

/-- Fixture: the program of Scenario C in the specification. -/
def mscAiProgram : ProgramDetails :=
  { programName := "MSc AI", degreeType := "MSc", fieldRelevance := "AI",
    applicationRequirements := { ielts := "7.0", toefl := "100", greGmat := "", gpaRequirement := "3.5" },
    applicationFee := "$75", applicationDeadlines := [{ intake := "Fall", deadline := "2024-12-01" }],
    programLink := "https://mit.edu/msc-ai", applicationLink := "https://mit.edu/apply" }

/-- Fixture: a discovered professor recommendation. -/
def recProfessorA : ProfessorRecommendation :=
  { id := "jane-roe-Stanford-University", name := "Jane Roe",
    university := "Stanford University", department := "CS",
    researchSummary := "robotics", labWebsite := "https://lab.stanford.edu",
    email := "jroe@stanford.edu", designation := some "Professor",
    suggestedPapers := none }

/-! Claim C7: program id derivation and save/unsave toggling. -/

/-- Claim C7: `handleSaveProgram` computes the id by joining the program and
university names with a hyphen, replacing each whitespace run by a hyphen
and lower-casing — so `"MSc AI"`/`"MIT"` gives `"msc-ai-mit"` — and a second
invocation with identical inputs removes the record instead of duplicating
it (and whenever the id is already present, the call removes it). -/
theorem c7_program_id_toggle :
    programIdOf "MSc AI" "MIT" = "msc-ai-mit" ∧
    ∀ (saved : List SavedProgram) (program : ProgramDetails) (universityName : String),
      ((saved.any (fun q => q.id == programIdOf program.programName universityName)) = false →
        handleSaveProgram (handleSaveProgram saved program universityName) program universityName = saved) ∧
      ((saved.any (fun q => q.id == programIdOf program.programName universityName)) = true →
        handleSaveProgram saved program universityName =
          saved.filter (fun q => q.id != programIdOf program.programName universityName)) := by
  refine ⟨by decide, ?_⟩
  intro saved program universityName
  constructor
  · intro h
    have hall : ∀ q ∈ saved, ¬ (q.id == programIdOf program.programName universityName) = true :=
      List.any_eq_false.mp h
    have h1 : handleSaveProgram saved program universityName =
        saved ++ [mkSavedProgram program universityName] := by
      simp [handleSaveProgram, h]
    have h2 : ((saved ++ [mkSavedProgram program universityName]).any
        (fun q => q.id == programIdOf program.programName universityName)) = true := by
      refine List.any_eq_true.mpr ⟨mkSavedProgram program universityName, ?_, ?_⟩
      · exact List.mem_append.mpr (Or.inr (by simp))
      · simp [mkSavedProgram]
    have h3 : saved.filter (fun q => q.id != programIdOf program.programName universityName) = saved :=
      List.filter_eq_self.mpr (by
        intro q hq
        have hb : (q.id == programIdOf program.programName universityName) = false := by
          have := hall q hq
          revert this
          cases q.id == programIdOf program.programName universityName <;> simp
        simp [bne, hb])
    rw [h1]
    simp only [handleSaveProgram, h2, if_true]
    rw [List.filter_append, h3]
    simp [mkSavedProgram]
  · intro h
    simp [handleSaveProgram, h]

/-! Claim C10: the discovery-flow save-professor toggle. -/

/-- Claim C10: `handleSaveProfessor` is a toggle keyed by the professor's
id: if the id is already saved the record is removed, otherwise a fresh
record is appended with empty feedback, `emailSent = false` and outcome
`pending`; applying the toggle twice leaves the set of saved ids
unchanged. -/
theorem c10_discovery_save_toggle :
    ∀ (saved : List SavedProfessor) (prof : ProfessorRecommendation),
      ((saved.any (fun p => p.id == prof.id)) = false →
        handleSaveProfessor saved prof = saved ++ [mkSavedFromRecommendation prof] ∧
        (mkSavedFromRecommendation prof).feedback = "" ∧
        (mkSavedFromRecommendation prof).emailSent = false ∧
        (mkSavedFromRecommendation prof).outcome = Outcome.pending) ∧
      ((saved.any (fun p => p.id == prof.id)) = true →
        handleSaveProfessor saved prof = saved.filter (fun p => p.id != prof.id)) ∧
      (∀ x : String,
        x ∈ (handleSaveProfessor (handleSaveProfessor saved prof) prof).map (fun p => p.id) ↔
          x ∈ saved.map (fun p => p.id)) := by
  intro saved prof
  refine ⟨?_, ?_, ?_⟩
  · intro h
    refine ⟨?_, rfl, rfl, rfl⟩
    unfold handleSaveProfessor
    rw [h]
    simp
  · intro h
    unfold handleSaveProfessor
    rw [h]
    simp
  · intro x
    by_cases h : (saved.any (fun p => p.id == prof.id)) = true
    · -- first call removes, second re-appends the id
      have h1 : handleSaveProfessor saved prof = saved.filter (fun p => p.id != prof.id) := by
        unfold handleSaveProfessor; rw [h]; simp
      have h2 : ((saved.filter (fun p => p.id != prof.id)).any (fun p => p.id == prof.id)) = false := by
        rw [List.any_eq_false]
        intro p hp
        have := (List.mem_filter.mp hp).2
        simp only [bne_iff_ne, ne_eq] at this
        simp [this]
      have h3 : handleSaveProfessor (handleSaveProfessor saved prof) prof =
          saved.filter (fun p => p.id != prof.id) ++ [mkSavedFromRecommendation prof] := by
        rw [h1]
        unfold handleSaveProfessor
        rw [h2]
        simp
      rw [h3]
      obtain ⟨q, hq, hqi⟩ := List.any_eq_true.mp h
      have hqid : q.id = prof.id := by simpa using hqi
      constructor
      · intro hx
        rcases List.mem_map.mp hx with ⟨p, hp, rfl⟩
        rcases List.mem_append.mp hp with hp' | hp'
        · exact List.mem_map.mpr ⟨p, (List.mem_filter.mp hp').1, rfl⟩
        · have : p = mkSavedFromRecommendation prof := by simpa using hp'
          subst this
          exact List.mem_map.mpr ⟨q, hq, by simp [mkSavedFromRecommendation, hqid]⟩
      · intro hx
        rcases List.mem_map.mp hx with ⟨p, hp, rfl⟩
        by_cases hpe : p.id = prof.id
        · refine List.mem_map.mpr ⟨mkSavedFromRecommendation prof, ?_, ?_⟩
          · exact List.mem_append.mpr (Or.inr (by simp))
          · simp [mkSavedFromRecommendation, hpe]
        · refine List.mem_map.mpr ⟨p, ?_, rfl⟩
          refine List.mem_append.mpr (Or.inl (List.mem_filter.mpr ⟨hp, ?_⟩))
          simp [bne, hpe]
    · -- id not saved: append then remove gives back the original list
      have h' : (saved.any (fun p => p.id == prof.id)) = false := by
        revert h; cases saved.any (fun p => p.id == prof.id) <;> simp
      have hall : ∀ p ∈ saved, (p.id == prof.id) = false := by
        intro p hp
        have := List.any_eq_false.mp h' p hp
        revert this
        cases p.id == prof.id <;> simp
      have h1 : handleSaveProfessor saved prof = saved ++ [mkSavedFromRecommendation prof] := by
        unfold handleSaveProfessor; rw [h']; simp
      have h2 : ((saved ++ [mkSavedFromRecommendation prof]).any (fun p => p.id == prof.id)) = true := by
        rw [List.any_eq_true]
        exact ⟨mkSavedFromRecommendation prof, List.mem_append.mpr (Or.inr (by simp)), by simp [mkSavedFromRecommendation]⟩
      have h3 : handleSaveProfessor (handleSaveProfessor saved prof) prof = saved := by
        rw [h1]
        unfold handleSaveProfessor
        rw [h2]
        simp only [if_true]
        rw [List.filter_append]
        have hs : saved.filter (fun p => p.id != prof.id) = saved :=
          List.filter_eq_self.mpr (by
            intro p hp
            simp [bne, hall p hp])
        simp [hs, mkSavedFromRecommendation]
      rw [h3]

/-- Witness for claim C7 at Scenario C's concrete inputs: the id is
`"msc-ai-mit"` and saving twice from an empty list returns the empty
list. -/
theorem c7_program_id_toggle_witness :
    programIdOf "MSc AI" "MIT" = "msc-ai-mit" ∧
    handleSaveProgram (handleSaveProgram [] mscAiProgram "MIT") mscAiProgram "MIT" = [] :=
  ⟨(c7_program_id_toggle).1,
   ((c7_program_id_toggle).2 [] mscAiProgram "MIT").1 (by decide)⟩

/-- Witness for claim C10 at a concrete professor: saving appends the
defaulted record and toggling twice restores the id set. -/
theorem c10_discovery_save_toggle_witness :
    handleSaveProfessor [] recProfessorA = [mkSavedFromRecommendation recProfessorA] ∧
    ("jane-roe-Stanford-University" ∈
        (handleSaveProfessor (handleSaveProfessor [] recProfessorA) recProfessorA).map (fun p => p.id) ↔
      "jane-roe-Stanford-University" ∈ ([] : List SavedProfessor).map (fun p => p.id)) :=
  ⟨((c10_discovery_save_toggle [] recProfessorA).1 (by decide)).1,
   (c10_discovery_save_toggle [] recProfessorA).2.2 "jane-roe-Stanford-University"⟩

/-! Claim C5: profile count bounds. -/

/-- Helper: deleting by the active id removes at most one profile when the
profile ids are distinct. -/
theorem length_filter_active_ge (profiles : List UserProfile) (active : Option String)
    (h : (profiles.map (fun p => p.id)).Nodup) :
    profiles.length - 1 ≤ (profiles.filter (fun p => some p.id != active)).length := by
  induction profiles with
  | nil => simp
  | cons p rest ih =>
    rw [List.map_cons, List.nodup_cons] at h
    by_cases hc : (some p.id != active) = true
    · have ihr := ih h.2
      rw [List.filter_cons, if_pos hc]
      simp only [List.length_cons]
      omega
    · have hpe : some p.id = active := by
        revert hc
        simp [bne]
      have hrest : rest.filter (fun q => some q.id != active) = rest := by
        refine List.filter_eq_self.mpr ?_
        intro q hq
        have hqid : q.id ≠ p.id := by
          intro he
          exact h.1 (he ▸ List.mem_map.mpr ⟨q, hq, rfl⟩)
        have : some q.id ≠ active := by
          rw [← hpe]
          simp [hqid]
        simp [bne, this]
      rw [List.filter_cons, if_neg hc, hrest]
      simp

/-- Claim C5: with distinct profile ids, once a profile exists the profile
count stays within 1..5 under both `handleAddProfile` and
`handleDeleteProfile`; creating at five profiles is a no-op and deleting at
one profile is rejected. -/
theorem c5_profile_count_bounds :
    ∀ (profiles : List UserProfile) (active : Option String) (freshId : String),
      (profiles.length = 5 → (handleAddProfile profiles active freshId).1 = profiles) ∧
      (profiles.length = 1 → handleDeleteProfile profiles active = (profiles, active)) ∧
      ((profiles.map (fun p => p.id)).Nodup → 1 ≤ profiles.length → profiles.length ≤ 5 →
        (1 ≤ (handleAddProfile profiles active freshId).1.length ∧
         (handleAddProfile profiles active freshId).1.length ≤ 5 ∧
         1 ≤ (handleDeleteProfile profiles active).1.length ∧
         (handleDeleteProfile profiles active).1.length ≤ 5)) := by
  intro profiles active freshId
  refine ⟨?_, ?_, ?_⟩
  · intro h
    simp [handleAddProfile, h]
  · intro h
    simp [handleDeleteProfile, h]
  · intro hnd h1 h5
    refine ⟨?_, ?_, ?_, ?_⟩
    · by_cases hlt : profiles.length < 5
      · simp only [handleAddProfile, if_pos hlt]
        simp
      · simp only [handleAddProfile, if_neg hlt]
        exact h1
    · by_cases hlt : profiles.length < 5
      · simp only [handleAddProfile, if_pos hlt]
        simp
        omega
      · simp only [handleAddProfile, if_neg hlt]
        exact h5
    · by_cases hgt : 1 < profiles.length
      · simp only [handleDeleteProfile, if_pos hgt]
        have := length_filter_active_ge profiles active hnd
        omega
      · simp only [handleDeleteProfile, if_neg hgt]
        exact h1
    · by_cases hgt : 1 < profiles.length
      · simp only [handleDeleteProfile, if_pos hgt]
        have := List.length_filter_le (fun p => some p.id != active) profiles
        omega
      · simp only [handleDeleteProfile, if_neg hgt]
        exact h5

/-- Witness for claim C5 at a concrete two-profile account: adding keeps
the count within bounds and deleting cannot go below one. -/
theorem c5_profile_count_bounds_witness :
    (1 ≤ (handleAddProfile [createNewProfile "u1" "Profile 1", createNewProfile "u2" "Profile 2"]
            (some "u1") "u3").1.length ∧
     (handleAddProfile [createNewProfile "u1" "Profile 1", createNewProfile "u2" "Profile 2"]
            (some "u1") "u3").1.length ≤ 5 ∧
     1 ≤ (handleDeleteProfile [createNewProfile "u1" "Profile 1", createNewProfile "u2" "Profile 2"]
            (some "u1")).1.length ∧
     (handleDeleteProfile [createNewProfile "u1" "Profile 1", createNewProfile "u2" "Profile 2"]
            (some "u1")).1.length ≤ 5) :=
  (c5_profile_count_bounds [createNewProfile "u1" "Profile 1", createNewProfile "u2" "Profile 2"]
      (some "u1") "u3").2.2 (by decide) (by decide) (by decide)

/-! Claim C6: upsert idempotence of the analysis save. -/

/-- Helper: `find?` commutes with a map that does not change the
predicate's value. -/
theorem find?_map_of_inv {α : Type} (f : α → α) (p : α → Bool)
    (hf : ∀ x, p (f x) = p x) (l : List α) :
    (l.map f).find? p = (l.find? p).map f := by
  induction l with
  | nil => simp
  | cons a l ih =>
    rw [List.map_cons, List.find?_cons, List.find?_cons, hf a]
    cases p a <;> simp [ih]

/-- Helper: `countP` is unchanged by a map that does not change the
predicate's value. -/
theorem countP_map_of_inv {α : Type} (f : α → α) (p : α → Bool)
    (hf : ∀ x, p (f x) = p x) (l : List α) :
    (l.map f).countP p = l.countP p := by
  induction l with
  | nil => simp
  | cons a l ih =>
    rw [List.map_cons, List.countP_cons, List.countP_cons, hf a, ih]

/-- Helper: appending a single element to a list with no match makes it the
result of `find?` exactly when it matches. -/
theorem find?_append_singleton {α : Type} (p : α → Bool) (l : List α) (a : α)
    (h : l.find? p = none) :
    (l ++ [a]).find? p = if p a then some a else none := by
  induction l with
  | nil =>
    rw [List.nil_append, List.find?_cons]
    cases p a <;> simp
  | cons b l ih =>
    rw [List.find?_cons] at h
    rw [List.cons_append, List.find?_cons]
    cases hb : p b
    · rw [hb] at h
      simp only [hb]
      exact ih h
    · rw [hb] at h
      simp at h

/-- Helper: when at most one element satisfies the predicate, any two
satisfying members are equal. -/
theorem eq_of_countP_le_one {α : Type} (p : α → Bool) (l : List α)
    (hc : l.countP p ≤ 1) {q : α} (hq : q ∈ l) (hpq : p q = true) :
    ∀ x ∈ l, p x = true → x = q := by
  induction l with
  | nil => simp at hq
  | cons a rest ih =>
    rw [List.countP_cons] at hc
    intro x hx hpx
    cases hpa : p a
    · rw [hpa] at hc
      simp only [Bool.false_eq_true, if_false] at hc
      have hqr : q ∈ rest := by
        rcases List.mem_cons.mp hq with h | h
        · subst h; rw [hpq] at hpa; exact absurd hpa (by simp)
        · exact h
      have hxr : x ∈ rest := by
        rcases List.mem_cons.mp hx with h | h
        · subst h; rw [hpx] at hpa; exact absurd hpa (by simp)
        · exact h
      exact ih hc hqr x hxr hpx
    · rw [hpa] at hc
      simp only [if_true] at hc
      have hz : rest.countP p = 0 := by omega
      have hnone : ∀ y ∈ rest, ¬ p y := List.countP_eq_zero.mp hz
      have hqa : q = a := by
        rcases List.mem_cons.mp hq with h | h
        · exact h
        · exact absurd hpq (hnone q h)
      have hxa : x = a := by
        rcases List.mem_cons.mp hx with h | h
        · exact h
        · exact absurd hpx (hnone x h)
      rw [hxa, hqa]

/-- Claim C6: saving an analysis result twice for the same professor key
(`name`, `university`) — starting from a list in which at most one record
carries that key — leaves exactly one record with the key, does not grow
the list on the second save, and that record's analysis fields equal the
most recent save's fields. -/
theorem c6_professor_upsert :
    ∀ (saved : List SavedProfessor) (p : ProfToSave) (r1 r2 : AnalysisResult),
      saved.countP (fun q => q.name == p.name && q.university == p.university) ≤ 1 →
      ((handleSaveAnalysisToProfessor (handleSaveAnalysisToProfessor saved p r1) p r2).countP
          (fun q => q.name == p.name && q.university == p.university) = 1 ∧
       (handleSaveAnalysisToProfessor (handleSaveAnalysisToProfessor saved p r1) p r2).length
          = (handleSaveAnalysisToProfessor saved p r1).length ∧
       ∀ q ∈ handleSaveAnalysisToProfessor (handleSaveAnalysisToProfessor saved p r1) p r2,
         (q.name == p.name && q.university == p.university) = true →
         q.alignmentSummary = some r2.alignmentSummary ∧
         q.outreachEmail = some r2.outreachEmail ∧
         q.emailSubject = some r2.emailSubject) := by
  intro saved p r1 r2 hcount
  have hkeyapply : ∀ (q : SavedProfessor) (r : AnalysisResult),
      ((applyAnalysis q r).name == p.name && (applyAnalysis q r).university == p.university) =
        (q.name == p.name && q.university == p.university) := by
    intro q r; rfl
  cases hfind : saved.find? (fun q => q.name == p.name && q.university == p.university) with
  | none =>
    have hall := List.find?_eq_none.mp hfind
    have s1 : handleSaveAnalysisToProfessor saved p r1 = saved ++ [newSavedProfOf p r1] := by
      simp only [handleSaveAnalysisToProfessor, hfind]
    have hkeynew : ((newSavedProfOf p r1).name == p.name &&
        (newSavedProfOf p r1).university == p.university) = true := by
      simp [newSavedProfOf]
    have hfind2 : (saved ++ [newSavedProfOf p r1]).find?
        (fun q => q.name == p.name && q.university == p.university) = some (newSavedProfOf p r1) := by
      rw [find?_append_singleton _ _ _ hfind, hkeynew]
      simp
    have s2 : handleSaveAnalysisToProfessor (handleSaveAnalysisToProfessor saved p r1) p r2 =
        (saved ++ [newSavedProfOf p r1]).map
          (fun q => if q.id == (newSavedProfOf p r1).id then applyAnalysis q r2 else q) := by
      rw [s1]
      simp only [handleSaveAnalysisToProfessor, hfind2]
    have hinv : ∀ q : SavedProfessor,
        (((if q.id == (newSavedProfOf p r1).id then applyAnalysis q r2 else q)).name == p.name &&
         ((if q.id == (newSavedProfOf p r1).id then applyAnalysis q r2 else q)).university == p.university) =
        (q.name == p.name && q.university == p.university) := by
      intro q
      by_cases hq : (q.id == (newSavedProfOf p r1).id) = true
      · rw [if_pos hq]; exact hkeyapply q r2
      · rw [if_neg hq]
    refine ⟨?_, ?_, ?_⟩
    · rw [s2, countP_map_of_inv _ _ hinv, List.countP_append]
      have h0 : saved.countP (fun q => q.name == p.name && q.university == p.university) = 0 :=
        List.countP_eq_zero.mpr hall
      rw [h0]
      simp [List.countP_cons, hkeynew]
    · rw [s2, s1, List.length_map]
    · intro q hq hkq
      rw [s2] at hq
      rcases List.mem_map.mp hq with ⟨x, hx, rfl⟩
      rcases List.mem_append.mp hx with hx' | hx'
      · rw [hinv x] at hkq
        exact absurd hkq (hall x hx')
      · have hxn : x = newSavedProfOf p r1 := by simpa using hx'
        subst hxn
        rw [if_pos (by simp)]
        exact ⟨rfl, rfl, rfl⟩
  | some q₀ =>
    have hq0 := List.find?_some hfind
    have hq0m : q₀ ∈ saved := List.mem_of_find?_eq_some hfind
    have hinv1 : ∀ q : SavedProfessor,
        (((if q.id == q₀.id then applyAnalysis q r1 else q)).name == p.name &&
         ((if q.id == q₀.id then applyAnalysis q r1 else q)).university == p.university) =
        (q.name == p.name && q.university == p.university) := by
      intro q
      by_cases hq : (q.id == q₀.id) = true
      · rw [if_pos hq]; exact hkeyapply q r1
      · rw [if_neg hq]
    have s1 : handleSaveAnalysisToProfessor saved p r1 =
        saved.map (fun q => if q.id == q₀.id then applyAnalysis q r1 else q) := by
      simp only [handleSaveAnalysisToProfessor, hfind]
    have hfind1 : (saved.map (fun q => if q.id == q₀.id then applyAnalysis q r1 else q)).find?
        (fun q => q.name == p.name && q.university == p.university) =
        some (applyAnalysis q₀ r1) := by
      rw [find?_map_of_inv _ _ hinv1, hfind]
      simp
    have s2 : handleSaveAnalysisToProfessor (handleSaveAnalysisToProfessor saved p r1) p r2 =
        (saved.map (fun q => if q.id == q₀.id then applyAnalysis q r1 else q)).map
          (fun q => if q.id == (applyAnalysis q₀ r1).id then applyAnalysis q r2 else q) := by
      rw [s1]
      simp only [handleSaveAnalysisToProfessor, hfind1]
    have hida : (applyAnalysis q₀ r1).id = q₀.id := rfl
    have hinv2 : ∀ q : SavedProfessor,
        (((if q.id == (applyAnalysis q₀ r1).id then applyAnalysis q r2 else q)).name == p.name &&
         ((if q.id == (applyAnalysis q₀ r1).id then applyAnalysis q r2 else q)).university == p.university) =
        (q.name == p.name && q.university == p.university) := by
      intro q
      by_cases hq : (q.id == (applyAnalysis q₀ r1).id) = true
      · rw [if_pos hq]; exact hkeyapply q r2
      · rw [if_neg hq]
    have hcount1 : saved.countP (fun q => q.name == p.name && q.university == p.university) = 1 := by
      have hpos : 0 < saved.countP (fun q => q.name == p.name && q.university == p.university) :=
        List.countP_pos_iff.mpr ⟨q₀, hq0m, hq0⟩
      omega
    refine ⟨?_, ?_, ?_⟩
    · rw [s2, countP_map_of_inv _ _ hinv2, countP_map_of_inv _ _ hinv1, hcount1]
    · rw [s2, s1, List.length_map]
    · intro q hq hkq
      rw [s2] at hq
      rcases List.mem_map.mp hq with ⟨y, hy, rfl⟩
      rcases List.mem_map.mp hy with ⟨x, hx, rfl⟩
      rw [hinv2 _, hinv1 x] at hkq
      have hxq0 : x = q₀ :=
        eq_of_countP_le_one _ saved hcount hq0m hq0 x hx hkq
      subst hxq0
      have houter : (((if (x.id == x.id) = true then applyAnalysis x r1 else x).id ==
          (applyAnalysis x r1).id) = true) := by
        simp [applyAnalysis]
      rw [if_pos houter]
      exact ⟨rfl, rfl, rfl⟩

/-- Fixture: a professor passed to the analysis save (the
`ProfessorProfile` variant, with no id). -/
def profToSaveA : ProfToSave :=
  { id := none, name := "Jane Roe", university := "Stanford University",
    department := "CS", researchSummary := "robotics",
    labWebsite := "https://lab.stanford.edu", email := "jroe@stanford.edu",
    designation := none, suggestedPapers := none }

/-- Fixture: a first analysis result. -/
def analysisR1 : AnalysisResult :=
  { alignmentSummary := "good fit", outreachEmail := "Dear Prof Roe v1",
    emailSubject := "Inquiry v1" }

/-- Fixture: a second analysis result. -/
def analysisR2 : AnalysisResult :=
  { alignmentSummary := "great fit", outreachEmail := "Dear Prof Roe v2",
    emailSubject := "Inquiry v2" }

/-- Witness for claim C6: saving twice from an empty list leaves exactly
one matching record, the second save adds nothing, and the record carries
the latest fields. -/
theorem c6_professor_upsert_witness :
    (handleSaveAnalysisToProfessor (handleSaveAnalysisToProfessor [] profToSaveA analysisR1)
        profToSaveA analysisR2).countP
      (fun q => q.name == profToSaveA.name && q.university == profToSaveA.university) = 1 ∧
    (handleSaveAnalysisToProfessor (handleSaveAnalysisToProfessor [] profToSaveA analysisR1)
        profToSaveA analysisR2).length
      = (handleSaveAnalysisToProfessor [] profToSaveA analysisR1).length :=
  ⟨(c6_professor_upsert [] profToSaveA analysisR1 analysisR2 (by decide)).1,
   (c6_professor_upsert [] profToSaveA analysisR1 analysisR2 (by decide)).2.1⟩

/-! Claim C8: email regeneration only touches the email fields. -/

/-- Helper: the per-record update of `handleRegenerateMerge` changes at
most `outreachEmail` and `emailSubject` and leaves every other field —
in particular `alignmentSummary` — untouched. -/
theorem applyRegen_step_frame (q q' : SavedProfessor) (profId : String) (d : RegeneratedEmail)
    (hq : q' = if (q.id == profId) = true then applyRegenerated q d else q) :
    q'.alignmentSummary = q.alignmentSummary ∧ q'.id = q.id ∧ q'.name = q.name ∧
    q'.university = q.university ∧ q'.department = q.department ∧
    q'.researchSummary = q.researchSummary ∧ q'.labWebsite = q.labWebsite ∧
    q'.email = q.email ∧ q'.designation = q.designation ∧
    q'.suggestedPapers = q.suggestedPapers ∧
    q'.universityProfileLink = q.universityProfileLink ∧
    q'.googleScholarLink = q.googleScholarLink ∧ q'.feedback = q.feedback ∧
    q'.emailSent = q.emailSent ∧ q'.outcome = q.outcome ∧
    (q.id = profId → q'.outreachEmail = some d.outreachEmail ∧
                     q'.emailSubject = some d.emailSubject) := by
  by_cases h : (q.id == profId) = true
  · rw [if_pos h] at hq
    subst hq
    refine ⟨rfl, rfl, rfl, rfl, rfl, rfl, rfl, rfl, rfl, rfl, rfl, rfl, rfl, rfl, rfl, ?_⟩
    intro _
    exact ⟨rfl, rfl⟩
  · rw [if_neg h] at hq
    subst hq
    refine ⟨rfl, rfl, rfl, rfl, rfl, rfl, rfl, rfl, rfl, rfl, rfl, rfl, rfl, rfl, rfl, ?_⟩
    intro he
    exact absurd (by simp [he]) h

/-- Claim C8: after `handleRegenerateForSavedProfessor`'s state update, the
list length is unchanged and every record keeps its `alignmentSummary`
byte-for-byte (and all other non-email fields); the targeted record's
`outreachEmail`/`emailSubject` take the regenerated values. -/
theorem c8_regeneration_preserves_summary :
    ∀ (saved : List SavedProfessor) (profId : String) (d : RegeneratedEmail)
      (i : Nat) (h : i < saved.length) (h2 : i < (handleRegenerateMerge saved profId d).length),
      (handleRegenerateMerge saved profId d).length = saved.length ∧
      ((handleRegenerateMerge saved profId d).get ⟨i, h2⟩).alignmentSummary
          = (saved.get ⟨i, h⟩).alignmentSummary ∧
      ((handleRegenerateMerge saved profId d).get ⟨i, h2⟩).id = (saved.get ⟨i, h⟩).id ∧
      ((handleRegenerateMerge saved profId d).get ⟨i, h2⟩).name = (saved.get ⟨i, h⟩).name ∧
      ((handleRegenerateMerge saved profId d).get ⟨i, h2⟩).university = (saved.get ⟨i, h⟩).university ∧
      ((handleRegenerateMerge saved profId d).get ⟨i, h2⟩).department = (saved.get ⟨i, h⟩).department ∧
      ((handleRegenerateMerge saved profId d).get ⟨i, h2⟩).researchSummary = (saved.get ⟨i, h⟩).researchSummary ∧
      ((handleRegenerateMerge saved profId d).get ⟨i, h2⟩).labWebsite = (saved.get ⟨i, h⟩).labWebsite ∧
      ((handleRegenerateMerge saved profId d).get ⟨i, h2⟩).email = (saved.get ⟨i, h⟩).email ∧
      ((handleRegenerateMerge saved profId d).get ⟨i, h2⟩).designation = (saved.get ⟨i, h⟩).designation ∧
      ((handleRegenerateMerge saved profId d).get ⟨i, h2⟩).suggestedPapers = (saved.get ⟨i, h⟩).suggestedPapers ∧
      ((handleRegenerateMerge saved profId d).get ⟨i, h2⟩).universityProfileLink = (saved.get ⟨i, h⟩).universityProfileLink ∧
      ((handleRegenerateMerge saved profId d).get ⟨i, h2⟩).googleScholarLink = (saved.get ⟨i, h⟩).googleScholarLink ∧
      ((handleRegenerateMerge saved profId d).get ⟨i, h2⟩).feedback = (saved.get ⟨i, h⟩).feedback ∧
      ((handleRegenerateMerge saved profId d).get ⟨i, h2⟩).emailSent = (saved.get ⟨i, h⟩).emailSent ∧
      ((handleRegenerateMerge saved profId d).get ⟨i, h2⟩).outcome = (saved.get ⟨i, h⟩).outcome ∧
      ((saved.get ⟨i, h⟩).id = profId →
        ((handleRegenerateMerge saved profId d).get ⟨i, h2⟩).outreachEmail = some d.outreachEmail ∧
        ((handleRegenerateMerge saved profId d).get ⟨i, h2⟩).emailSubject = some d.emailSubject) := by
  intro saved profId d i h h2
  have hget : (handleRegenerateMerge saved profId d).get ⟨i, h2⟩ =
      (if (saved.get ⟨i, h⟩).id == profId then applyRegenerated (saved.get ⟨i, h⟩) d
       else saved.get ⟨i, h⟩) := by
    simp [handleRegenerateMerge, List.get_eq_getElem, List.getElem_map]
  have hframe := applyRegen_step_frame (saved.get ⟨i, h⟩)
    ((handleRegenerateMerge saved profId d).get ⟨i, h2⟩) profId d hget
  exact ⟨by simp [handleRegenerateMerge], hframe.1, hframe.2.1, hframe.2.2.1,
    hframe.2.2.2.1, hframe.2.2.2.2.1, hframe.2.2.2.2.2.1, hframe.2.2.2.2.2.2.1,
    hframe.2.2.2.2.2.2.2.1, hframe.2.2.2.2.2.2.2.2.1, hframe.2.2.2.2.2.2.2.2.2.1,
    hframe.2.2.2.2.2.2.2.2.2.2.1, hframe.2.2.2.2.2.2.2.2.2.2.2.1,
    hframe.2.2.2.2.2.2.2.2.2.2.2.2.1, hframe.2.2.2.2.2.2.2.2.2.2.2.2.2.1,
    hframe.2.2.2.2.2.2.2.2.2.2.2.2.2.2.1, hframe.2.2.2.2.2.2.2.2.2.2.2.2.2.2.2⟩

/-- Fixture: a saved professor with a generated analysis attached. -/
def savedProfA : SavedProfessor :=
  { id := "jane-roe-Stanford-University", name := "Jane Roe",
    university := "Stanford University", department := "CS",
    researchSummary := "robotics", labWebsite := "https://lab.stanford.edu",
    email := "jroe@stanford.edu", designation := some "Professor",
    suggestedPapers := none, universityProfileLink := none,
    googleScholarLink := none, feedback := "met at ICRA, said \"email me\"",
    emailSent := false, outcome := .pending,
    alignmentSummary := some "good fit", outreachEmail := some "Dear Prof Roe v1",
    emailSubject := some "Inquiry v1" }

/-- Fixture: a regenerated email pair. -/
def regenD : RegeneratedEmail :=
  { outreachEmail := "Dear Prof Roe v2", emailSubject := "Inquiry v2" }

/-- Witness for claim C8 at a one-record list: the alignment summary is
unchanged while the email fields take the regenerated values. -/
theorem c8_regeneration_preserves_summary_witness :
    ((handleRegenerateMerge [savedProfA] "jane-roe-Stanford-University" regenD).get
        ⟨0, by decide⟩).alignmentSummary = ([savedProfA].get ⟨0, by decide⟩).alignmentSummary ∧
    ((handleRegenerateMerge [savedProfA] "jane-roe-Stanford-University" regenD).get
        ⟨0, by decide⟩).outreachEmail = some regenD.outreachEmail :=
  ⟨(c8_regeneration_preserves_summary [savedProfA] "jane-roe-Stanford-University" regenD
      0 (by decide) (by decide)).2.1,
   ((c8_regeneration_preserves_summary [savedProfA] "jane-roe-Stanford-University" regenD
      0 (by decide) (by decide)).2.2.2.2.2.2.2.2.2.2.2.2.2.2.2.2 (by decide)).1⟩

/-! Claim C9: CSV export row counts and content. -/

/-- Helper: inserting adds exactly one element. -/
theorem length_insertLe {α : Type} (le : α → α → Bool) (a : α) (l : List α) :
    (insertLe le a l).length = l.length + 1 := by
  induction l with
  | nil => rfl
  | cons b l ih =>
    rw [insertLe]
    by_cases h : (le a b) = true
    · rw [if_pos h]; rfl
    · rw [if_neg h]
      simp [ih]

/-- Helper: the sort used by `displayedProfessors` preserves length. -/
theorem length_insertionSortLe {α : Type} (le : α → α → Bool) (l : List α) :
    (insertionSortLe le l).length = l.length := by
  induction l with
  | nil => rfl
  | cons a l ih =>
    rw [insertionSortLe, length_insertLe, ih]
    rfl

/-- Helper: membership in an insertion. -/
theorem mem_insertLe {α : Type} (le : α → α → Bool) (a x : α) (l : List α) :
    x ∈ insertLe le a l ↔ x = a ∨ x ∈ l := by
  induction l with
  | nil => simp [insertLe]
  | cons b l ih =>
    rw [insertLe]
    by_cases h : (le a b) = true
    · rw [if_pos h]
      simp
    · rw [if_neg h]
      simp only [List.mem_cons, ih]
      tauto

/-- Helper: the sort used by `displayedProfessors` preserves membership. -/
theorem mem_insertionSortLe {α : Type} (le : α → α → Bool) (x : α) (l : List α) :
    x ∈ insertionSortLe le l ↔ x ∈ l := by
  induction l with
  | nil => simp [insertionSortLe]
  | cons a l ih =>
    rw [insertionSortLe, mem_insertLe]
    simp only [List.mem_cons, ih]

/-- Helper: with the email-status filter at `"all"`, the displayed list is
the term-filtered list, sorted. -/
theorem displayedProfessors_all (saved : List SavedProfessor) (searchTerm sortOrder : String) :
    displayedProfessors saved searchTerm "all" sortOrder =
      insertionSortLe (sortLe sortOrder) (saved.filter (fun p => matchesTerm searchTerm p)) := by
  unfold displayedProfessors
  congr 1
  apply List.filter_congr
  intro p _
  simp [matchesEmailStatus]

/-- Claim C9: the exported CSV consists of the fixed header line plus
exactly one data row per record matching the substring filter, and every
data row is the cell rendering of a matching record (with its notes cell
quote-wrapped and quote-escaped by `csvCells`). -/
theorem c9_export_rows :
    ∀ (saved : List SavedProfessor) (searchTerm sortOrder : String),
      (exportLines saved searchTerm "all" sortOrder).length
          = 1 + (saved.filter (fun p => matchesTerm searchTerm p)).length ∧
      ∀ row ∈ (exportLines saved searchTerm "all" sortOrder).tail,
        ∃ q, q ∈ saved ∧ matchesTerm searchTerm q = true ∧ row = csvRowOf q := by
  intro saved searchTerm sortOrder
  constructor
  · rw [exportLines, List.length_cons, displayedProfessors_all, List.length_map,
        length_insertionSortLe]
    omega
  · intro row hrow
    rw [exportLines] at hrow
    simp only [List.tail_cons] at hrow
    rcases List.mem_map.mp hrow with ⟨q, hq, rfl⟩
    rw [displayedProfessors_all, mem_insertionSortLe] at hq
    have hq' := List.mem_filter.mp hq
    exact ⟨q, hq'.1, hq'.2, rfl⟩

/-- Fixture: a second saved professor (non-matching in Scenario B). -/
def savedProfB : SavedProfessor :=
  { id := "alan-doe-MIT", name := "Alan Doe", university := "MIT",
    department := "EECS", researchSummary := "ML systems",
    labWebsite := "https://mit.edu/lab", email := "adoe@mit.edu",
    designation := none, suggestedPapers := none, universityProfileLink := none,
    googleScholarLink := none, feedback := "", emailSent := true,
    outcome := .positive, alignmentSummary := none, outreachEmail := none,
    emailSubject := none }

/-- Fixture: a third saved professor (non-matching in Scenario B). -/
def savedProfC : SavedProfessor :=
  { id := "eva-lin-ETH", name := "Eva Lin", university := "ETH Zurich",
    department := "D-INFK", researchSummary := "graphics",
    labWebsite := "https://ethz.ch/lab", email := "elin@ethz.ch",
    designation := none, suggestedPapers := none, universityProfileLink := none,
    googleScholarLink := none, feedback := "", emailSent := false,
    outcome := .negative, alignmentSummary := none, outreachEmail := none,
    emailSubject := none }

/-- Witness for claim C9 at Scenario B: of three saved professors exactly
one matches "stanford", so the export is the header plus one data row —
whose notes cell shows the doubled quotes. -/
theorem c9_export_rows_witness :
    (exportLines [savedProfA, savedProfB, savedProfC] "stanford" "all" "name-asc").length
        = 1 + 1 ∧
    exportLines [savedProfA, savedProfB, savedProfC] "stanford" "all" "name-asc" =
      [csvHeaders,
       "Jane Roe,Stanford University,CS,,pending,jroe@stanford.edu,,https://lab.stanford.edu,,\"met at ICRA, said \"\"email me\"\"\""] := by
  constructor
  · rw [(c9_export_rows [savedProfA, savedProfB, savedProfC] "stanford" "name-asc").1]
    decide
  · decide

/-! Claims C1 to C4: the session and data-sync controller. Fixtures,
counterexamples, invariants over all reachable runs, and witnesses. -/

/-- Helper: the empty per-account document. -/
def emptyUserData : UserData :=
  { profiles := [], activeProfileId := none, savedProfessors := [],
    savedPrograms := [], sops := [] }

/-- Fixture: a placeholder save call used as a list default. -/
def dummySave : SaveCall :=
  { email := "", payload := emptyUserData, loadedBefore := false }

/-- Fixture: a profile owned by account A. -/
def profA : UserProfile := createNewProfile "pA" "Profile 1"

/-- Fixture: account A's remote document (one profile, one saved
professor). -/
def dataA : UserData :=
  { profiles := [profA], activeProfileId := some "pA",
    savedProfessors := [savedProfA], savedPrograms := [], sops := [] }

/-- Fixture: a store response for a failed fetch (an error whose code is
not `PGRST116`). -/
def failureResp : StoreSingleResponse :=
  { data := none, error := some { code := "08006", message := "connection failure" } }

/-- Fixture: the store response for a genuinely absent row. -/
def notFoundResp : StoreSingleResponse :=
  { data := none,
    error := some { code := "PGRST116", message := "JSON object requested, multiple (or no) rows returned" } }

/-- Fixture trace: the user signs in and creates a profile before the
session's load has completed. -/
def traceEarlySave : List Event :=
  [Event.authResolved (some "a@x.com"), Event.addProfile "p1"]

/-- Fixture trace: a new account's first load finds no remote document. -/
def traceNewAccount : List Event :=
  [Event.authResolved (some "a@x.com"), Event.loadComplete "a@x.com" none]

/-- Fixture trace: account A loads its data, then the session switches
directly to account B without a sign-out. -/
def traceSwitch : List Event :=
  [Event.authResolved (some "a@x.com"), Event.loadComplete "a@x.com" (some dataA),
   Event.sessionChange (some "b@x.com")]

/-- Fixture trace: the session's load resolves with the result that
`getUserData` produces for a failed fetch. -/
def traceFailedFetch : List Event :=
  [Event.authResolved (some "a@x.com"),
   Event.loadComplete "a@x.com" (getUserData failureResp)]

/-- Fixture trace: a normal session, load completed. -/
def traceGood : List Event :=
  [Event.authResolved (some "a@x.com"), Event.loadComplete "a@x.com" (some dataA)]

/-- Fixture trace: a normal session followed by a logout. -/
def traceSignedOut : List Event :=
  [Event.authResolved (some "a@x.com"), Event.loadComplete "a@x.com" (some dataA),
   Event.logout]

/-- Fixture: the run of `traceGood`. -/
def runGood : RunState := (runTrace traceGood).getD initRun

/-- Fixture: the run of `traceSignedOut`. -/
def runSignedOut : RunState := (runTrace traceSignedOut).getD initRun

/-- Fixture: the state after account B signs in from the signed-out run. -/
def runSwitchedIn : RunState :=
  (stepRun runSignedOut (Event.sessionChange (some "b@x.com"))).getD initRun

/-- Fixture: the state after a load failure in the good run. -/
def runLoadFailed : RunState :=
  (stepRun runGood (Event.loadFailed "a@x.com" "connection lost")).getD initRun

/-- Helper: a save is emitted only with a non-empty payload (the effect's
own guard). -/
theorem saveEmit_some_payload (st : AppState) (em : String) (d : UserData)
    (h : saveEmit st = some (em, d)) :
    d.profiles ≠ [] ∨ d.activeProfileId ≠ none := by
  unfold saveEmit at h
  split at h
  · exact absurd h (by simp)
  · split at h
    · exact absurd h (by simp)
    · split at h
      · exact absurd h (by simp)
      · rename_i email hguard
        simp only [Option.some.injEq, Prod.mk.injEq] at h
        have hd : d = dataOf st := h.2.symm
        subst hd
        rw [Bool.and_eq_true] at hguard
        by_cases hp : st.profiles = []
        · right
          intro hact
          exact hguard ⟨by simp [hp], by simp [dataOf] at hact ⊢; exact hact⟩
        · left
          simpa [dataOf] using hp

/-- Helper: the save effect is suppressed on an empty state. -/
theorem saveEmit_none_of_empty (st : AppState)
    (h1 : st.profiles = []) (h2 : st.activeProfileId = none) :
    saveEmit st = none := by
  unfold saveEmit
  split
  · rfl
  · split
    · rfl
    · rw [if_pos (by simp [h1, h2])]

/-- Helper: an invariant preserved by every enabled step and true of the
initial state holds in every reachable run. -/
theorem foldlM_option_inv {σ α : Type} (f : σ → α → Option σ) (P : σ → Prop)
    (hstep : ∀ s a s', f s a = some s' → P s → P s') :
    ∀ (l : List α) (s s' : σ), List.foldlM f s l = some s' → P s → P s' := by
  intro l
  induction l with
  | nil =>
    intro s s' h hP
    simp only [List.foldlM_nil, Option.pure_def, Option.some.injEq] at h
    subst h
    exact hP
  | cons a l ih =>
    intro s s' h hP
    rw [List.foldlM_cons] at h
    cases hfa : f s a with
    | none => rw [hfa] at h; exact absurd h (by simp)
    | some s2 =>
      rw [hfa] at h
      simp only [Option.bind_eq_bind, Option.some_bind] at h
      exact ih s2 s' h (hstep s a s2 hfa hP)

/-- Helper: a per-call property of emitted saves is preserved by each
step. -/
theorem stepRun_saves_pred (P : SaveCall → Prop)
    (hemit : ∀ (st : AppState) (em : String) (d : UserData) (b : Bool),
       saveEmit st = some (em, d) → P { email := em, payload := d, loadedBefore := b })
    (rs : RunState) (e : Event) (rs' : RunState) (h : stepRun rs e = some rs')
    (hP : ∀ sc ∈ rs.saves, P sc) :
    ∀ sc ∈ rs'.saves, P sc := by
  unfold stepRun at h
  cases hstep : step rs.app e with
  | none => rw [hstep] at h; exact absurd h (by simp)
  | some app2 =>
    rw [hstep] at h
    simp only [Option.some.injEq] at h
    subst h
    intro sc hsc
    have hsc2 : sc ∈ nextSaves rs app2 (nextLoaded rs e app2) := hsc
    unfold nextSaves at hsc2
    by_cases hdeps : (depsOf app2 != depsOf rs.app) = true
    · rw [if_pos hdeps] at hsc2
      cases hse : saveEmit app2 with
      | none => rw [hse] at hsc2; exact hP sc hsc2
      | some pr =>
        rw [hse] at hsc2
        obtain ⟨em, d⟩ := pr
        rcases List.mem_append.mp hsc2 with hold | hnew
        · exact hP sc hold
        · have hsc3 := List.mem_singleton.mp hnew
          rw [hsc3]
          exact hemit app2 em d _ hse
    · rw [if_neg hdeps] at hsc2
      exact hP sc hsc2

/-- Claim C1 counterexample: in the trace where the user signs in and then
creates a profile before the session's load has completed, a
`saveUserData` call fires with the ghost "load completed" flag still
false — a persistence call before the initial load, contradicting the
claim. -/
theorem c1_counterexample :
    (runTrace traceEarlySave).map
      (fun rs => (rs.loaded, rs.saves.map (fun sc => (sc.email, sc.loadedBefore)))) =
      some (false, [("a@x.com", false)]) := by decide

/-- Claim C1 (amended): the save effect is suppressed during the initial
auth check, while signed out, and while the local state is the empty
bootstrap state (no profiles and no active profile id) — so the empty
bootstrap document is never persisted; the effect is not, however,
synchronized with load completion. -/
theorem c1_saves_never_empty :
    ∀ (events : List Event) (rs : RunState), runTrace events = some rs →
      ∀ sc ∈ rs.saves, sc.payload.profiles ≠ [] ∨ sc.payload.activeProfileId ≠ none := by
  intro events rs h
  refine foldlM_option_inv stepRun
    (fun rs => ∀ sc ∈ rs.saves, sc.payload.profiles ≠ [] ∨ sc.payload.activeProfileId ≠ none)
    ?_ events initRun rs h ?_
  · intro s a s' hs hP
    exact stepRun_saves_pred _ (fun st em d b hse => saveEmit_some_payload st em d hse) s a s' hs hP
  · intro sc hsc
    simp [initRun] at hsc

/-- Witness for the amended claim C1: the (legitimate) save of the good
trace carries a non-empty payload. -/
theorem c1_saves_never_empty_witness :
    (runGood.saves.headD dummySave).payload.profiles ≠ [] ∨
    (runGood.saves.headD dummySave).payload.activeProfileId ≠ none :=
  c1_saves_never_empty traceGood runGood (by decide)
    (runGood.saves.headD dummySave) (by decide)

/-- Claim C2 counterexample: when the first load of a new account finds no
remote document, the current code leaves zero profiles (none named
"Default Profile"), a null active id, and issues no persistence call —
contradicting the claimed bootstrap of a default profile. -/
theorem c2_counterexample :
    (runTrace traceNewAccount).map
      (fun rs => (rs.app.profiles.map (fun p => p.profileName), rs.app.activeProfileId,
                  rs.saves.length)) =
      some ([], none, 0) := by decide

/-- Claim C2 (amended): a first load that finds no remote document sets an
entirely empty local state and persists nothing; the first profile is only
created later by an explicit user action. -/
theorem c2_empty_load_sets_empty_state :
    ∀ st : AppState,
      (applyLoadResult none st).profiles = [] ∧
      (applyLoadResult none st).activeProfileId = none ∧
      (applyLoadResult none st).savedProfessors = [] ∧
      (applyLoadResult none st).savedPrograms = [] ∧
      (applyLoadResult none st).sops = [] ∧
      saveEmit (applyLoadResult none st) = none := by
  intro st
  refine ⟨rfl, rfl, rfl, rfl, rfl, ?_⟩
  exact saveEmit_none_of_empty _ rfl rfl

/-- Claim C3 counterexample: `getUserData` maps a failed fetch (error code
other than `PGRST116`) to `null`, indistinguishable from an absent
document; the session then renders the main UI over an empty state — no
blocking error screen. -/
theorem c3_counterexample :
    getUserData failureResp = none ∧
    getUserData failureResp = getUserData notFoundResp ∧
    (runTrace traceFailedFetch).map
      (fun rs => (render rs.app, rs.app.error, rs.app.profiles.length)) =
      some (Screen.main, none, 0) :=
  ⟨by decide, by decide, by decide⟩

/-- Claim C3 (amended): a fetch failure reported through the store's error
result is logged and treated as an absent document (`getUserData` returns
`null`); only an exception thrown inside the load routine is fatal and
produces the blocking error screen with the manual reload action. -/
theorem c3_store_error_behavior :
    (∀ (resp : StoreSingleResponse) (e : StoreError), resp.error = some e →
       getUserData resp = (if e.code == "PGRST116" then resp.data else none)) ∧
    (∀ (rs rs' : RunState) (forSession message : String),
       rs.app.isInitialLoad = false →
       stepRun rs (Event.loadFailed forSession message) = some rs' →
       render rs'.app = Screen.errorScreen) := by
  constructor
  · intro resp e h
    unfold getUserData
    rw [h]
    cases hc : e.code == "PGRST116" <;> simp [Option.any, bne, hc]
  · intro rs rs' forSession message hinit h
    unfold stepRun at h
    cases hstep : step rs.app (Event.loadFailed forSession message) with
    | none => rw [hstep] at h; exact absurd h (by simp)
    | some app2 =>
      rw [hstep] at h
      simp only [Option.some.injEq] at h
      subst h
      simp only [step] at hstep
      by_cases hg : (rs.app.session == some forSession) = true
      · rw [if_pos hg] at hstep
        simp only [Option.some.injEq] at hstep
        subst hstep
        have hsess : rs.app.session = some forSession := by
          simpa using hg
        simp [render, hinit, hsess]
      · rw [if_neg hg] at hstep
        exact absurd hstep (by simp)

/-- Witness for the amended claim C3: the concrete failure response maps to
`null`, and a thrown load failure on the good run yields the error
screen. -/
theorem c3_store_error_behavior_witness :
    getUserData failureResp = none ∧ render runLoadFailed.app = Screen.errorScreen :=
  ⟨by
     have h := c3_store_error_behavior.1 failureResp
       { code := "08006", message := "connection failure" } rfl
     simpa using h,
   c3_store_error_behavior.2 runGood runLoadFailed "a@x.com" "connection lost"
     (by decide) (by decide)⟩

/-- Claim C4 counterexample: after account A's data is loaded, a direct
session switch to account B (no sign-out in between) leaves A's saved
professor in B's in-memory state and immediately fires a `saveUserData`
call under B's email whose payload still contains A's record. -/
theorem c4_counterexample :
    (runTrace traceSwitch).map
      (fun rs => (rs.app.session, rs.app.savedProfessors,
                  rs.saves.map (fun sc => (sc.email, sc.payload.savedProfessors)))) =
      some (some "b@x.com", [savedProfA],
            [("a@x.com", [savedProfA]), ("b@x.com", [savedProfA])]) := by decide

/-- Helper: the collections-empty predicate of the signed-out invariant. -/
def emptyCollections (st : AppState) : Prop :=
  st.profiles = [] ∧ st.activeProfileId = none ∧ st.savedProfessors = [] ∧
    st.savedPrograms = [] ∧ st.sops = []

/-- Helper: `applyLoadResult` never changes the session. -/
theorem applyLoadResult_session (r : Option UserData) (st : AppState) :
    (applyLoadResult r st).session = st.session := by
  cases r <;> rfl

/-- Helper: each enabled step preserves "signed out implies all collections
empty". -/
theorem stepRun_signedOut_inv (rs : RunState) (e : Event) (rs' : RunState)
    (h : stepRun rs e = some rs')
    (_hP : rs.app.session = none → emptyCollections rs.app) :
    rs'.app.session = none → emptyCollections rs'.app := by
  unfold stepRun at h
  cases hstep : step rs.app e with
  | none => rw [hstep] at h; exact absurd h (by simp)
  | some app2 =>
    rw [hstep] at h
    simp only [Option.some.injEq] at h
    subst h
    intro hn
    simp only at hn ⊢
    cases e with
    | authResolved s =>
      simp only [step, Option.some.injEq] at hstep
      subst hstep
      cases s with
      | none => exact ⟨rfl, rfl, rfl, rfl, rfl⟩
      | some v => simp [setSession] at hn
    | sessionChange s =>
      simp only [step, Option.some.injEq] at hstep
      subst hstep
      cases s with
      | none => exact ⟨rfl, rfl, rfl, rfl, rfl⟩
      | some v => simp [setSession] at hn
    | loadComplete forSession r =>
      simp only [step] at hstep
      by_cases hg : (rs.app.session == some forSession) = true
      · rw [if_pos hg] at hstep
        simp only [Option.some.injEq] at hstep
        subst hstep
        rw [applyLoadResult_session] at hn
        rw [hn] at hg
        simp at hg
      · rw [if_neg hg] at hstep
        exact absurd hstep (by simp)
    | loadFailed forSession message =>
      simp only [step] at hstep
      by_cases hg : (rs.app.session == some forSession) = true
      · rw [if_pos hg] at hstep
        simp only [Option.some.injEq] at hstep
        subst hstep
        simp only at hn
        rw [hn] at hg
        simp at hg
      · rw [if_neg hg] at hstep
        exact absurd hstep (by simp)
    | logout =>
      simp only [step, Option.some.injEq] at hstep
      subst hstep
      exact ⟨rfl, rfl, rfl, rfl, rfl⟩
    | addProfile freshId =>
      simp only [step] at hstep
      by_cases hg : uiActive rs.app = true
      · rw [if_pos hg] at hstep
        simp only [Option.some.injEq] at hstep
        subst hstep
        simp only at hn
        unfold uiActive at hg
        rw [hn] at hg
        simp at hg
      · rw [if_neg hg] at hstep
        exact absurd hstep (by simp)
    | addSavedProfessor p =>
      simp only [step] at hstep
      by_cases hg : uiActive rs.app = true
      · rw [if_pos hg] at hstep
        simp only [Option.some.injEq] at hstep
        subst hstep
        simp only at hn
        unfold uiActive at hg
        rw [hn] at hg
        simp at hg
      · rw [if_neg hg] at hstep
        exact absurd hstep (by simp)

/-- Claim C4 (amended): in every reachable run, being signed out implies
all local collections are empty; consequently a sign-in that follows a
sign-out starts from fully reset collections and emits no save of the
previous account's data under the new identity. A direct session switch
without a sign-out is not covered (see the counterexample). -/
theorem c4_signout_resets :
    ∀ (events : List Event) (rs : RunState), runTrace events = some rs →
      (rs.app.session = none → emptyCollections rs.app) ∧
      (∀ (b : String) (rs' : RunState), rs.app.session = none →
        stepRun rs (Event.sessionChange (some b)) = some rs' →
        emptyCollections rs'.app ∧ rs'.saves = rs.saves) := by
  intro events rs h
  have hinv : rs.app.session = none → emptyCollections rs.app := by
    refine foldlM_option_inv stepRun
      (fun rs => rs.app.session = none → emptyCollections rs.app)
      ?_ events initRun rs h ?_
    · intro s a s' hs hP
      exact stepRun_signedOut_inv s a s' hs hP
    · intro _
      exact ⟨rfl, rfl, rfl, rfl, rfl⟩
  refine ⟨hinv, ?_⟩
  intro b rs' hn hstep
  have hemp := hinv hn
  unfold stepRun at hstep
  have happ : step rs.app (Event.sessionChange (some b)) =
      some (setSession (some b) rs.app) := rfl
  rw [happ] at hstep
  simp only [Option.some.injEq] at hstep
  subst hstep
  constructor
  · exact ⟨hemp.1, hemp.2.1, hemp.2.2.1, hemp.2.2.2.1, hemp.2.2.2.2⟩
  · show nextSaves rs (setSession (some b) rs.app)
        (nextLoaded rs (Event.sessionChange (some b)) (setSession (some b) rs.app)) = rs.saves
    unfold nextSaves
    have hse : saveEmit (setSession (some b) rs.app) = none :=
      saveEmit_none_of_empty _ hemp.1 hemp.2.1
    rw [hse]
    split
    · rfl
    · rfl

/-- Witness for the amended claim C4: after logging out of account A and
signing in as account B, the collections are empty and no save was emitted
at the sign-in step. -/
theorem c4_signout_resets_witness :
    emptyCollections runSwitchedIn.app ∧ runSwitchedIn.saves = runSignedOut.saves :=
  (c4_signout_resets traceSignedOut runSignedOut (by decide)).2 "b@x.com"
    runSwitchedIn (by decide) (by decide)

end Resonext
